import Mathlib

/-
Verification development for the cargo-network optimizer (src/app.py).

The pipeline in app.py is embedded shallowly:
- spreadsheet cells are `RawCell` (a blank / NaN cell, the literal "-",
  a numeric cell, or other text that `float()` cannot coerce);
- `xls.parse(...).replace("-", 0).fillna(0)` (app.py line 14-15) is `cleanDirectRow` /
  `cleanIndirectRow`, applied to every numeric cell before the row loops run;
- python dicts keyed by od / leg strings become insertion-ordered association
  lists (`update` replaces in place, `dlookup` finds the first match), exactly
  the visible behaviour of dict assignment and lookup;
- floats are idealized as `ℚ`; `float(...)` is `floatV`, raising (returning
  `.error`) on non-numeric text;
- the PuLP solver call is a parameter `sol : String → ℚ`: after `prob.solve()`
  (line 122, whose status return value the code discards) every variable carries
  whatever value the solver wrote into `varValue`; the post-processing is a
  function of those values only;
- the linear program assembled in lines 101-120 is captured by the predicate
  `feasible` and the function `objectiveValue`.
-/

attribute [local semireducible] Rat.mul Rat.add Rat.inv Rat.sub

inductive RawCell where
  | blank
  | dash
  | num (q : ℚ)
  | text (s : String)
deriving DecidableEq, Repr

/-- The `.replace("-", 0).fillna(0)` normalization of app.py lines 14-15:
a blank (NaN) cell and the placeholder "-" both become the number 0. -/
def clean (c : RawCell) : RawCell :=
  match c with
  | .blank => .num 0
  | .dash => .num 0
  | x => x

/-- Python `float(cell)`: numeric cells coerce, other text raises ValueError
(modelled as `.error` with the CPython message text). A blank cell cannot
reach this point in app.py because `fillna(0)` ran first. -/
def floatV : RawCell → Except String ℚ
  | .num q => .ok q
  | .text s => .error ("could not convert string to float: " ++ s)
  | .dash => .error "could not convert string to float: -"
  | .blank => .error "float of blank cell"

/-- One row of the first sheet (direct routes): the identifying `O-D`/`Sector`
cell already extracted and stripped (lines 25-29; an empty string models a
falsy/unusable id), plus the numeric cells the loop reads. -/
structure DirectRow where
  od : String
  aiCap : RawCell
  cm : RawCell
  aiShare : RawCell
deriving DecidableEq, Repr

/-- One row of the second sheet (indirect routes), lines 45-97. The two
`{i}st Leg AI Share` columns are present in the sheet but never read by the
code (the read was commented out at line 76); they are kept here so that the
embedding can state claims about fields the code ignores. -/
structure IndirectRow where
  od : String
  cm : RawCell
  aiShare : RawCell
  leg1 : String
  leg2 : String
  tpCap1 : RawCell
  masterCap1 : RawCell
  tpCap2 : RawCell
  masterCap2 : RawCell
  leg1Share : RawCell
  leg2Share : RawCell
deriving DecidableEq, Repr

def cleanDirectRow (r : DirectRow) : DirectRow :=
  { r with aiCap := clean r.aiCap, cm := clean r.cm, aiShare := clean r.aiShare }

def cleanIndirectRow (r : IndirectRow) : IndirectRow :=
  { r with
    cm := clean r.cm, aiShare := clean r.aiShare,
    tpCap1 := clean r.tpCap1, masterCap1 := clean r.masterCap1,
    tpCap2 := clean r.tpCap2, masterCap2 := clean r.masterCap2,
    leg1Share := clean r.leg1Share, leg2Share := clean r.leg2Share }

inductive PathType where
  | Direct
  | Indirect
deriving DecidableEq, Repr

/-- The value stored in `all_od_paths` (lines 36-41 and 64-69). -/
structure OdPath where
  legs : List String
  cm : ℚ
  maxAllocable : ℚ
  ptype : PathType
deriving DecidableEq, Repr

/-- Insertion-ordered dict assignment `d[k] = v`: replace in place, else append. -/
def update {α : Type} : List (String × α) → String → α → List (String × α)
  | [], k, v => [(k, v)]
  | (k', v') :: t, k, v => if k' = k then (k, v) :: t else (k', v') :: update t k v

/-- Dict lookup: the value at the first (unique) matching key. -/
def dlookup {α : Type} : List (String × α) → String → Option α
  | [], _ => none
  | (k', v) :: t, k => if k' = k then some v else dlookup t k

/-- The `leg_tp_caps.setdefault(leg, []).append((od, tp_cap))` of line 79. -/
def appendTp : List (String × List (String × ℚ)) → String → String → ℚ →
    List (String × List (String × ℚ))
  | [], leg, od, cap => [(leg, [(od, cap)])]
  | (k, caps) :: t, leg, od, cap =>
    if k = leg then (k, caps ++ [(od, cap)]) :: t
    else (k, caps) :: appendTp t leg od cap

/-- The four dictionaries of lines 18-21, plus the `st.warning` messages
(line 91) and the row-level `st.error` diagnostics (line 96) that were emitted
while building them. -/
structure BuildState where
  all_od_paths : List (String × OdPath)
  leg_total_capacities : List (String × ℚ)
  leg_tp_caps : List (String × List (String × ℚ))
  leg_tp_master_caps : List (String × ℚ)
  warnings : List String
  rowErrors : List String
deriving DecidableEq, Repr

def initState : BuildState := ⟨[], [], [], [], [], []⟩

/-- The warning of line 91 (python prints the float as e.g. "100.0" where ℚ
prints "100"; the textual payload is otherwise identical). -/
def warnFallback (leg od : String) (cap : ℚ) : String :=
  "Leg " ++ leg ++ " used by indirect route " ++ od ++
    " but not defined in Direct Routes. Assuming its total capacity will be limited by TP Master Cap: " ++
    toString cap

/-- The row-level diagnostic of line 96. -/
def indirectRowError (od e : String) : String :=
  "Error processing indirect route row for OD " ++ od ++ ": " ++ e

def addRowError (st : BuildState) (od e : String) : BuildState :=
  { st with rowErrors := st.rowErrors ++ [indirectRowError od e] }

/-- One direct-routes row, lines 24-41: any `float()` failure propagates (the
direct loop has no row-level try/except, so the error aborts the whole run via
the outer handler at line 222). Note the leg capacity is stored (line 32)
before `CM` is read. -/
def processDirectRow (st : BuildState) (r : DirectRow) : Except String BuildState :=
  if r.od = "" then .ok st
  else
    match floatV r.aiCap with
    | .error e => .error e
    | .ok ai_cap =>
      let st1 := { st with
        leg_total_capacities := update st.leg_total_capacities r.od ai_cap }
      match floatV r.cm with
      | .error e => .error e
      | .ok cm =>
        match floatV r.aiShare with
        | .error e => .error e
        | .ok ai_share =>
          .ok { st1 with
            all_od_paths :=
              update st1.all_od_paths r.od ⟨[r.od], cm, min ai_share ai_cap, .Direct⟩ }

def processDirect (st : BuildState) : List DirectRow → Except String BuildState
  | [] => .ok st
  | r :: t =>
    match processDirectRow st r with
    | .error e => .error e
    | .ok st' => processDirect st' t

/-- Lines 74-92, one leg of an indirect row (the floats were already read):
append the (od, tp_cap) pair, overwrite the master cap, and fall back to the
master cap for the leg total capacity (with a warning) only when the leg is
not yet in `leg_total_capacities`. -/
def processLeg (st : BuildState) (od leg : String) (tp_cap master_cap : ℚ) : BuildState :=
  let st1 := { st with
    leg_tp_caps := appendTp st.leg_tp_caps leg od tp_cap,
    leg_tp_master_caps := update st.leg_tp_master_caps leg master_cap }
  if (dlookup st1.leg_total_capacities leg).isSome then st1
  else
    { st1 with
      warnings := st1.warnings ++ [warnFallback leg od master_cap],
      leg_total_capacities := update st1.leg_total_capacities leg master_cap }

/-- One indirect-routes row, lines 45-97. A `float()` failure anywhere in the
row is caught by the per-row `except` (line 95): the mutations already made
stick, a row error is recorded, and processing continues with the next row.
`tp_od_cap = ai_share` (line 56), so `max_allocable = min(ai_share, ai_share)`.
After `fillna(0)` the leg cells are never NaN, so both legs are always kept. -/
def processIndirectRow (st : BuildState) (r : IndirectRow) : BuildState :=
  if r.od = "" then st
  else
    match floatV r.cm with
    | .error e => addRowError st r.od e
    | .ok cm =>
      match floatV r.aiShare with
      | .error e => addRowError st r.od e
      | .ok ai_share =>
        let tp_od_cap := ai_share
        let st1 := { st with
          all_od_paths :=
            update st.all_od_paths r.od
              ⟨[r.leg1, r.leg2], cm, min ai_share tp_od_cap, .Indirect⟩ }
        match floatV r.tpCap1 with
        | .error e => addRowError st1 r.od e
        | .ok tp1 =>
          match floatV r.masterCap1 with
          | .error e => addRowError st1 r.od e
          | .ok m1 =>
            let st2 := processLeg st1 r.od r.leg1 tp1 m1
            match floatV r.tpCap2 with
            | .error e => addRowError st2 r.od e
            | .ok tp2 =>
              match floatV r.masterCap2 with
              | .error e => addRowError st2 r.od e
              | .ok m2 => processLeg st2 r.od r.leg2 tp2 m2

def processIndirect (st : BuildState) : List IndirectRow → BuildState
  | [] => st
  | r :: t => processIndirect (processIndirectRow st r) t

/-- Lines 12-97: normalize both sheets, run the direct loop (fatal on a bad
row) then the indirect loop (row-tolerant). -/
def buildModel (d : List DirectRow) (ind : List IndirectRow) : Except String BuildState :=
  match processDirect initState (d.map cleanDirectRow) with
  | .error e => .error e
  | .ok st => .ok (processIndirect st (ind.map cleanIndirectRow))

/-- The build state reached from an indirect-routes sheet alone. -/
def indirectOnlyState (rows : List IndirectRow) : BuildState :=
  processIndirect initState (rows.map cleanIndirectRow)

/-- Total tonnage on a leg: the sum over the routes whose leg list contains it
(line 107). -/
def legTraffic (st : BuildState) (x : String → ℚ) (leg : String) : ℚ :=
  ((st.all_od_paths.filter fun e => e.2.legs.contains leg).map fun e => x e.1).sum

/-- Indirect-only tonnage on a leg (line 120). -/
def indirectLegTraffic (st : BuildState) (x : String → ℚ) (leg : String) : ℚ :=
  ((st.all_od_paths.filter fun e =>
      e.2.legs.contains leg && e.2.ptype == PathType.Indirect).map fun e => x e.1).sum

/-- The objective of line 103: Σ x_od · cm. -/
def objectiveValue (st : BuildState) (x : String → ℚ) : ℚ :=
  (st.all_od_paths.map fun e => x e.1 * e.2.cm).sum

def odKeys (st : BuildState) : List String := st.all_od_paths.map Prod.fst

/-- The assembled linear program, lines 101-120: every variable non-negative
(`lowBound=0`), one leg-total constraint per `leg_total_capacities` entry, one
`Max_Allocable` constraint per route, one `TP_OD_Leg_Cap` constraint per
(leg, od, cap) triple, one `TP_Master_Cap` constraint per master-cap entry. -/
def feasible (st : BuildState) (x : String → ℚ) : Prop :=
  (∀ od ∈ odKeys st, 0 ≤ x od) ∧
  (∀ e ∈ st.leg_total_capacities, legTraffic st x e.1 ≤ e.2) ∧
  (∀ e ∈ st.all_od_paths, x e.1 ≤ e.2.maxAllocable) ∧
  (∀ e ∈ st.leg_tp_caps, ∀ oc ∈ e.2, x oc.1 ≤ oc.2) ∧
  (∀ e ∈ st.leg_tp_master_caps, indirectLegTraffic st x e.1 ≤ e.2)

instance feasibleDecidable (st : BuildState) (x : String → ℚ) : Decidable (feasible st x) :=
  inferInstanceAs (Decidable
    ((∀ od ∈ odKeys st, 0 ≤ x od) ∧
     (∀ e ∈ st.leg_total_capacities, legTraffic st x e.1 ≤ e.2) ∧
     (∀ e ∈ st.all_od_paths, x e.1 ≤ e.2.maxAllocable) ∧
     (∀ e ∈ st.leg_tp_caps, ∀ oc ∈ e.2, x oc.1 ≤ oc.2) ∧
     (∀ e ∈ st.leg_tp_master_caps, indirectLegTraffic st x e.1 ≤ e.2)))

/-- Python `round(x, 2)` idealized over ℚ: round to the nearest hundredth.
CPython rounds halves to even; no value used below sits exactly on a half, so
the two agree on everything stated here. -/
def round2 (q : ℚ) : ℚ := (round (q * 100) : ℤ) / 100

/-- PuLP replaces each of the characters `-+[] >/` in a variable name with an
underscore (`LpElement.illegal_chars`). -/
def pulpSanitize (s : String) : String :=
  ⟨s.data.map fun c => if c ∈ ['-', '+', '[', ']', ' ', '>', '/'] then '_' else c⟩

/-- The name of the decision variable PuLP creates for a route id
(`LpVariable.dicts("CargoTons", ...)`). -/
def varName (od : String) : String := "CargoTons_" ++ pulpSanitize od

/-- Line 127: `v.name.replace("CargoTons_", "").replace("_", "-")`. The route
ids in play never themselves contain the prefix text, so stripping it is
dropping the first 10 characters. -/
def nameToOd (n : String) : String :=
  ⟨(n.data.drop 10).map fun c => if c = '_' then '-' else c⟩

/-- The hyphen normalization of line 134: `k.replace('-', '_')`. -/
def hyNorm (s : String) : String := ⟨s.data.map fun c => if c = '-' then '_' else c⟩

/-- Lines 132-134: exact key match first, then the hyphen/underscore-normalized
match. -/
def findOrig (keys : List String) (od : String) : Option String :=
  match keys.find? fun k => k == od with
  | some k => some k
  | none => keys.find? fun k => hyNorm k == hyNorm od

/-- Code-point lexicographic strict order on char lists, as Python compares
strings (and as PuLP sorts variable names). -/
def chLt : List Char → List Char → Bool
  | [], [] => false
  | [], _ :: _ => true
  | _ :: _, [] => false
  | a :: as, b :: bs =>
    if a.val < b.val then true
    else if b.val < a.val then false
    else chLt as bs

/-- Python `a <= b` on strings. -/
def pyStrLe (a b : String) : Prop := chLt b.data a.data = false

instance : DecidableRel pyStrLe :=
  fun a b => inferInstanceAs (Decidable (chLt b.data a.data = false))

instance : DecidableRel fun a b : String => pyStrLe (varName a) (varName b) :=
  fun a b => inferInstanceAs (Decidable (chLt (varName b).data (varName a).data = false))

/-- `prob.variables()` returns the variables sorted by name; this is the
corresponding order on the route keys behind them. -/
def sortedVarKeys (st : BuildState) : List String :=
  List.insertionSort (fun a b => pyStrLe (varName a) (varName b)) (odKeys st)

/-- The row of the OD-allocation table (line 141-146): tonnage and profit are
stored rounded to 2 places, `cm` as is. -/
structure OdRow where
  od : String
  tons : ℚ
  cm : ℚ
  profit : ℚ
deriving DecidableEq, Repr

/-- One row of the leg-detail table before ranking (lines 160-166). -/
structure LegRow where
  leg : String
  od : String
  cm : ℚ
  tons : ℚ
  revenue : ℚ
deriving DecidableEq, Repr

/-- A leg-detail row with the `Priority Type` and `Fill Priority Rank` columns
filled in (lines 172-182). -/
structure RankedRow where
  row : LegRow
  priority : String
  rank : ℕ
deriving DecidableEq, Repr

def skipWarn (n : String) : String :=
  "Could not find original OD key for variable: " ++ n ++ ". Skipping."

def legSkipWarn (od : String) : String :=
  "Could not find original OD key " ++ od ++ " for leg breakdown. Skipping."

/-- Lines 124-148: walk the variables in name order; keep only strictly
positive values; recover the original dict key from the variable name; round
tonnage and profit for the table; warn and skip when no key matches. Returns
(rows, warnings). -/
def odSummaryOf (st : BuildState) (sol : String → ℚ) : List OdRow × List String :=
  (sortedVarKeys st).foldl
    (fun acc k =>
      if 0 < sol k then
        match findOrig (odKeys st) (nameToOd (varName k)) with
        | some k' =>
          match dlookup st.all_od_paths k' with
          | some p => (acc.1 ++ [⟨k', round2 (sol k), p.cm, round2 (sol k * p.cm)⟩], acc.2)
          | none => (acc.1, acc.2 ++ [skipWarn (varName k)])
        | none => (acc.1, acc.2 ++ [skipWarn (varName k)])
      else acc)
    ([], [])

/-- Lines 153-168: expand each OD-summary row into one record per leg. The
tonnage carried into the leg detail is the ROUNDED tonnage of the summary row
(`od_row._2`), and the lookup here is exact-match only (line 157). -/
def legRowsOf (st : BuildState) (ods : List OdRow) : List LegRow × List String :=
  ods.foldl
    (fun acc r =>
      match (odKeys st).find? fun k => k == r.od with
      | some k =>
        match dlookup st.all_od_paths k with
        | some p =>
          (acc.1 ++ p.legs.map fun leg => ⟨leg, r.od, r.cm, r.tons, r.tons * r.cm⟩, acc.2)
        | none => (acc.1, acc.2 ++ [legSkipWarn r.od])
      | none => (acc.1, acc.2 ++ [legSkipWarn r.od]))
    ([], [])

/-- Sort key used by `sort_values(by=["Cargo Tonnage"], ascending=False)` on an
index-tagged leg-detail row. -/
def iTons (p : ℕ × LegRow) : ℚ := p.2.tons

instance descKeyDec {α : Type} (key : α → ℚ) : DecidableRel fun a b => key a ≤ key b :=
  fun a b => inferInstanceAs (Decidable (key a ≤ key b))

instance descKeyTotal {α : Type} (key : α → ℚ) : IsTotal α fun a b => key a ≤ key b :=
  ⟨fun a b => le_total (key a) (key b)⟩

instance descKeyTrans {α : Type} (key : α → ℚ) : IsTrans α fun a b => key a ≤ key b :=
  ⟨fun _ _ _ hab hbc => le_trans hab hbc⟩

/-- Pandas `sort_values(..., ascending=False)`: an ascending argsort (stable
at the sizes occurring here, where numpy quicksort is insertion sort) whose
indexer is then reversed (`pandas.core.sorting.nargsort`). In particular rows
with EQUAL keys come out in reverse table order. -/
def descSortBy {α : Type} (key : α → ℚ) (l : List α) : List α :=
  (List.insertionSort (fun a b => key a ≤ key b) l).reverse

/-- The rows of `df_leg_detail.groupby("Flight Leg")` for one leg, tagged with
their dataframe index, in table order. -/
def groupOf (rows : List (ℕ × LegRow)) (leg : String) : List (ℕ × LegRow) :=
  rows.filter fun q => q.2.leg == leg

/-- Line 176-177: `enumerate(sorted_group.index, start=1)` — each row of the
descending-sorted group paired with its fill-priority rank. -/
def rankedGroup (g : List (ℕ × LegRow)) : List (ℕ × (ℕ × LegRow)) :=
  List.enumFrom 1 (descSortBy iTons g)

/-- The rank the loop writes back at a given dataframe index. -/
def rankOf (g : List (ℕ × LegRow)) (p : ℕ × LegRow) : ℕ :=
  match (rankedGroup g).find? fun rq => rq.2 == p with
  | some rq => rq.1
  | none => 0

/-- Lines 179-182: a single-contributor leg is "Only OD", otherwise every
contributor is labelled "Based on Cargo Tonnage". -/
def prioLabel (n : ℕ) : String :=
  if n = 1 then "Only OD" else "Based on Cargo Tonnage"

/-- Lines 172-182 assembled: every row keeps its table position and gains its
priority label and rank (the initial "Fills Remaining" never survives, since
every row belongs to its own group). -/
def rankedDetail (rows : List LegRow) : List RankedRow :=
  rows.enum.map fun p =>
    let g := groupOf rows.enum p.2.leg
    ⟨p.2, prioLabel g.length, rankOf g p⟩

def firstDedup (l : List String) : List String :=
  l.foldl (fun acc s => if s ∈ acc then acc else acc ++ [s]) []

/-- Line 184: `groupby('Flight Leg')['Cargo Tonnage'].sum()` — group keys in
sorted order, each with the sum of its rows' (rounded) tonnages. -/
def legSummaryOf (rows : List LegRow) : List (String × ℚ) :=
  (List.insertionSort pyStrLe (firstDedup (rows.map fun r => r.leg))).map
    fun leg => (leg, ((rows.filter fun r => r.leg == leg).map fun r => r.tons).sum)

/-- The four tables plus the total-profit scalar handed to the display tabs
(lines 196-220), together with all diagnostics emitted on the way. -/
structure Output where
  odSummary : List OdRow
  legDetail : List RankedRow
  legSummary : List (String × ℚ)
  totalProfit : ℚ
  warnings : List String
  rowErrors : List String
deriving DecidableEq, Repr

/-- Lines 124-220 after the solve: the post-processing runs unconditionally on
the variable values the solver left behind; `prob.status` is never consulted.
When the leg-detail record list is empty (no OD-summary row survived, or none
could be mapped back to a key), `pd.DataFrame([])` at line 171 has no columns
and `df_leg_detail.groupby("Flight Leg")` at line 175 raises
`KeyError: Flight Leg`, which aborts the whole run via the outer handler —
modelled as the `.error "Flight Leg"` branch. Otherwise every table is
produced, and `total_profit = pulp.value(prob.objective)` (line 185) is the
unrounded objective value. -/
def report (st : BuildState) (sol : String → ℚ) : Except String Output :=
  let ods := odSummaryOf st sol
  let lrs := legRowsOf st ods.1
  if lrs.1 = [] then .error "Flight Leg"
  else
    .ok ⟨ods.1, rankedDetail lrs.1, legSummaryOf lrs.1, objectiveValue st sol,
      st.warnings ++ ods.2 ++ lrs.2, st.rowErrors⟩

/-- The whole run (lines 11-223): any exception — a `float()` failure in the
build phase or the `KeyError` of the empty leg-detail frame — is caught by the
outer `except` (line 222) and only the error is emitted; otherwise every table
is produced. -/
def runPipeline (d : List DirectRow) (ind : List IndirectRow) (sol : String → ℚ) :
    Except String Output :=
  match buildModel d ind with
  | .error e => .error ("Error processing file: " ++ e)
  | .ok st =>
    match report st sol with
    | .error e => .error ("Error processing file: " ++ e)
    | .ok out => .ok out

/-- Solver output that leaves every variable at 0 (what CBC reports for the
infeasible instances used below). -/
def solZero : String → ℚ := fun _ => 0

/-- Scenario A of the spec: one direct route, capacity 100, share 60, margin 10. -/
def rowC5 : DirectRow := ⟨"A", .num 100, .num 10, .num 60⟩

def stC5 : BuildState :=
  ⟨[("A", ⟨["A"], 10, 60, .Direct⟩)], [("A", 100)], [], [], [], []⟩

def solC5 : String → ℚ := fun _ => 60

def outC5 : Output :=
  ⟨[⟨"A", 60, 10, 600⟩],
   [⟨⟨"A", "A", 10, 60, 600⟩, "Only OD", 1⟩],
   [("A", 60)], 600, [], []⟩

/-- A direct route whose own capacity cell is negative: the assembled LP is
infeasible (every x ≥ 0 but the leg total must be ≤ -5). -/
def rowC1 : DirectRow := ⟨"A", .num (-5), .num 10, .num 60⟩

def stC1 : BuildState :=
  ⟨[("A", ⟨["A"], 10, -5, .Direct⟩)], [("A", -5)], [], [], [], []⟩

/-- The tables the run emits on the infeasible `rowC1` model if the solver
leaves the (infeasible) value 60 in the variable: the status is never checked,
so full output appears. -/
def outC1pos : Output :=
  ⟨[⟨"A", 60, 10, 600⟩],
   [⟨⟨"A", "A", 10, 60, 600⟩, "Only OD", 1⟩],
   [("A", 60)], 600, [], []⟩

/-- Indirect sheet with one malformed row (non-numeric `CM`) between two valid
rows. -/
def rowsC2i : List IndirectRow :=
  [⟨"P", .num 5, .num 40, "L", "M", .num 100, .num 100, .num 100, .num 100, .num 0, .num 0⟩,
   ⟨"Q", .text "abc", .num 30, "L", "M", .num 100, .num 100, .num 100, .num 100, .num 0, .num 0⟩,
   ⟨"R", .num 4, .num 30, "L", "M", .num 100, .num 100, .num 100, .num 100, .num 0, .num 0⟩]

/-- Direct sheet with one malformed row (non-numeric `CM`) between two valid
rows. -/
def rowsC2d : List DirectRow :=
  [⟨"D1", .num 100, .num 10, .num 60⟩,
   ⟨"D2", .num 100, .text "oops", .num 60⟩,
   ⟨"D3", .num 80, .num 7, .num 50⟩]

def stC2 : BuildState :=
  ⟨[("P", ⟨["L", "M"], 5, 40, .Indirect⟩), ("R", ⟨["L", "M"], 4, 30, .Indirect⟩)],
   [("L", 100), ("M", 100)],
   [("L", [("P", 100), ("R", 100)]), ("M", [("P", 100), ("R", 100)])],
   [("L", 100), ("M", 100)],
   [warnFallback "L" "P" 100, warnFallback "M" "P" 100],
   [indirectRowError "Q" "could not convert string to float: abc"]⟩

def solC2 : String → ℚ := fun od => if od = "P" then 40 else if od = "R" then 30 else 0

def outC2 : Output :=
  ⟨[⟨"P", 40, 5, 200⟩, ⟨"R", 30, 4, 120⟩],
   [⟨⟨"L", "P", 5, 40, 200⟩, "Based on Cargo Tonnage", 1⟩,
    ⟨⟨"M", "P", 5, 40, 200⟩, "Based on Cargo Tonnage", 1⟩,
    ⟨⟨"L", "R", 4, 30, 120⟩, "Based on Cargo Tonnage", 2⟩,
    ⟨⟨"M", "R", 4, 30, 120⟩, "Based on Cargo Tonnage", 2⟩],
   [("L", 70), ("M", 70)], 320,
   [warnFallback "L" "P" 100, warnFallback "M" "P" 100],
   [indirectRowError "Q" "could not convert string to float: abc"]⟩

/-- Two indirect records over the same two legs, with parametric master caps
(`m1` then `m2`) and a leg-specific `AI Share` cell of 30 on both rows. -/
def rowX (m1 : ℚ) : IndirectRow :=
  ⟨"X", .num 5, .num 40, "L", "M", .num 100, .num m1, .num 100, .num m1, .num 30, .num 30⟩

def rowY (m2 : ℚ) : IndirectRow :=
  ⟨"Y", .num 4, .num 30, "L", "M", .num 100, .num m2, .num 100, .num m2, .num 30, .num 30⟩

/-- One indirect record with parametric numeric fields, for the route-ceiling
claims. -/
def rowC6 (cm share tp1 tp2 m1 m2 : ℚ) : IndirectRow :=
  ⟨"X", .num cm, .num share, "L1", "L2", .num tp1, .num m1, .num tp2, .num m2, .num 0, .num 0⟩

/-- Two indirect routes over the same legs whose solved tonnages tie at 20. -/
def rowsC7 : List IndirectRow :=
  [⟨"P", .num 5, .num 20, "L", "M", .num 100, .num 100, .num 100, .num 100, .num 0, .num 0⟩,
   ⟨"R", .num 4, .num 20, "L", "M", .num 100, .num 100, .num 100, .num 100, .num 0, .num 0⟩]

def stC7 : BuildState :=
  ⟨[("P", ⟨["L", "M"], 5, 20, .Indirect⟩), ("R", ⟨["L", "M"], 4, 20, .Indirect⟩)],
   [("L", 100), ("M", 100)],
   [("L", [("P", 100), ("R", 100)]), ("M", [("P", 100), ("R", 100)])],
   [("L", 100), ("M", 100)],
   [warnFallback "L" "P" 100, warnFallback "M" "P" 100],
   []⟩

def solC7 : String → ℚ := fun _ => 20

def outC7 : Output :=
  ⟨[⟨"P", 20, 5, 100⟩, ⟨"R", 20, 4, 80⟩],
   [⟨⟨"L", "P", 5, 20, 100⟩, "Based on Cargo Tonnage", 2⟩,
    ⟨⟨"M", "P", 5, 20, 100⟩, "Based on Cargo Tonnage", 2⟩,
    ⟨⟨"L", "R", 4, 20, 80⟩, "Based on Cargo Tonnage", 1⟩,
    ⟨⟨"M", "R", 4, 20, 80⟩, "Based on Cargo Tonnage", 1⟩],
   [("L", 40), ("M", 40)], 180,
   [warnFallback "L" "P" 100, warnFallback "M" "P" 100],
   []⟩

/-- An indirect row with a capacity sub-cap cell that is blank or "-". -/
def rowC8 (c : RawCell) : IndirectRow :=
  ⟨"X", .num 5, .num 50, "L1", "L2", c, .num 100, .num 50, .num 100, .num 0, .num 0⟩

def stC8 : BuildState :=
  ⟨[("X", ⟨["L1", "L2"], 5, 50, .Indirect⟩)],
   [("L1", 100), ("L2", 100)],
   [("L1", [("X", 0)]), ("L2", [("X", 50)])],
   [("L1", 100), ("L2", 100)],
   [warnFallback "L1" "X" 100, warnFallback "L2" "X" 100],
   []⟩

/-- A direct route whose allocable share has three decimal places. -/
def rowC9 : DirectRow := ⟨"A", .num 100, .num 3, .num (10567 / 1000)⟩

def stC9 : BuildState :=
  ⟨[("A", ⟨["A"], 3, 10567 / 1000, .Direct⟩)], [("A", 100)], [], [], [], []⟩

def solC9 : String → ℚ := fun _ => 10567 / 1000

def outC9 : Output :=
  ⟨[⟨"A", 1057 / 100, 3, 317 / 10⟩],
   [⟨⟨"A", "A", 3, 1057 / 100, 3171 / 100⟩, "Only OD", 1⟩],
   [("A", 1057 / 100)], 31701 / 1000, [], []⟩

/-- A direct route whose id contains a space, which PuLP rewrites to an
underscore in the variable name, next to an ordinary second route that keeps
the leg-detail frame non-empty. -/
def rowC10 : DirectRow := ⟨"A B", .num 100, .num 10, .num 60⟩

def rowC10b : DirectRow := ⟨"C", .num 80, .num 7, .num 50⟩

def stC10 : BuildState :=
  ⟨[("A B", ⟨["A B"], 10, 60, .Direct⟩), ("C", ⟨["C"], 7, 50, .Direct⟩)],
   [("A B", 100), ("C", 80)], [], [], [], []⟩

def solC10 : String → ℚ := fun od => if od = "A B" then 60 else 50

/-- The emitted output on the C10 instance: route "A B" (60 tons, profit 600)
is absent from all three tables, yet the total profit 950 still contains its
600. -/
def outC10 : Output :=
  ⟨[⟨"C", 50, 7, 350⟩],
   [⟨⟨"C", "C", 7, 50, 350⟩, "Only OD", 1⟩],
   [("C", 50)], 950,
   [skipWarn "CargoTons_A_B"], []⟩

theorem dlookup_update_self {α : Type} (l : List (String × α)) (k : String) (v : α) :
    dlookup (update l k v) k = some v := by
  induction l with
  | nil => simp [update, dlookup]
  | cons h t ih =>
    obtain ⟨k', v'⟩ := h
    by_cases hk : k' = k
    · simp [update, hk, dlookup]
    · simp [update, hk, dlookup, ih]

/-- A general direct record with a usable id and coercible numeric cells is
registered with `route_ceiling = min(AI Share, AI Cap)` (app.py line 39). -/
theorem processDirectRow_num (st : BuildState) (od : String) (cap cm share : ℚ)
    (h : od ≠ "") :
    ∃ st2, processDirectRow st ⟨od, .num cap, .num cm, .num share⟩ = .ok st2 ∧
      dlookup st2.all_od_paths od = some ⟨[od], cm, min share cap, .Direct⟩ := by
  refine ⟨{ st with
      leg_total_capacities := update st.leg_total_capacities od cap,
      all_od_paths := update st.all_od_paths od ⟨[od], cm, min share cap, .Direct⟩ }, ?_, ?_⟩
  · simp [processDirectRow, floatV, h]
  · exact dlookup_update_self _ _ _

theorem descSortBy_perm {α : Type} (key : α → ℚ) (l : List α) :
    (descSortBy key l).Perm l :=
  (List.reverse_perm _).trans (List.perm_insertionSort _ _)

theorem descSortBy_length {α : Type} (key : α → ℚ) (l : List α) :
    (descSortBy key l).length = l.length :=
  (descSortBy_perm key l).length_eq

theorem orderedInsert_of_le {α : Type} (key : α → ℚ) (a : α) (l : List α)
    (h : ∀ b ∈ l, key a ≤ key b) :
    List.orderedInsert (fun x y => key x ≤ key y) a l = a :: l := by
  cases l with
  | nil => rfl
  | cons b t => simp [List.orderedInsert, h b (List.mem_cons_self b t)]

/-- On a list whose keys are all equal, the stable ascending insertion sort is
the identity. -/
theorem insertionSort_allEq {α : Type} (key : α → ℚ) (l : List α)
    (h : ∀ a ∈ l, ∀ b ∈ l, key a = key b) :
    List.insertionSort (fun x y => key x ≤ key y) l = l := by
  induction l with
  | nil => rfl
  | cons a t ih =>
    rw [List.insertionSort,
      ih fun x hx y hy => h x (List.mem_cons_of_mem _ hx) y (List.mem_cons_of_mem _ hy),
      orderedInsert_of_le key a t fun b hb =>
        le_of_eq (h a (List.mem_cons_self a t) b (List.mem_cons_of_mem _ hb))]

/-- Pandas's descending sort reverses a list of all-equal keys. -/
theorem descSortBy_allEq {α : Type} (key : α → ℚ) (l : List α)
    (h : ∀ a ∈ l, ∀ b ∈ l, key a = key b) :
    descSortBy key l = l.reverse := by
  unfold descSortBy
  rw [insertionSort_allEq key l h]

/-- The head of the descending sort carries a maximal key. -/
theorem descSortBy_head_le {α : Type} (key : α → ℚ) (l : List α) (c : α) (rest : List α)
    (h : descSortBy key l = c :: rest) : ∀ d ∈ l, key d ≤ key c := by
  intro d hd
  have hs : List.Sorted (fun x y => key x ≤ key y)
      (List.insertionSort (fun x y => key x ≤ key y) l) :=
    List.sorted_insertionSort _ l
  have h2 : List.insertionSort (fun x y => key x ≤ key y) l = rest.reverse ++ [c] := by
    have h3 := congrArg List.reverse h
    unfold descSortBy at h3
    rwa [List.reverse_reverse, List.reverse_cons] at h3
  have hd2 : d ∈ rest.reverse ++ [c] := by
    rw [← h2]
    exact ((List.perm_insertionSort _ l).mem_iff).mpr hd
  rw [h2] at hs
  rcases List.mem_append.mp hd2 with h3 | h3
  · exact (List.pairwise_append.mp hs).2.2 d h3 c (List.mem_singleton_self c)
  · rw [List.mem_singleton.mp h3]

theorem rankedGroup_map_fst (g : List (ℕ × LegRow)) :
    (rankedGroup g).map Prod.fst = List.range' 1 g.length := by
  unfold rankedGroup
  rw [List.enumFrom_map_fst, descSortBy_length]

theorem rankedGroup_map_snd (g : List (ℕ × LegRow)) :
    ((rankedGroup g).map Prod.snd).Perm g := by
  unfold rankedGroup
  rw [List.enumFrom_map_snd]
  exact descSortBy_perm iTons g

/-- The LP built from `rowC1` admits no feasible point: the variable is
non-negative but the leg-total constraint demands a sum ≤ -5. -/
theorem stC1_infeasible : ¬ ∃ x, feasible stC1 x := by
  rintro ⟨x, hx⟩
  have h0 : (0 : ℚ) ≤ x "A" := hx.1 "A" (by decide)
  have hleg : legTraffic stC1 x "A" ≤ -5 := hx.2.1 ("A", -5) (by decide)
  have he : legTraffic stC1 x "A" = x "A" + 0 := rfl
  rw [he] at hleg
  linarith

/-- Every feasible point of the LP built from a blank/"-" sub-cap row pins the
route's tonnage at 0. -/
theorem stC8_forces_zero : ∀ x, feasible stC8 x → x "X" = 0 := by
  intro x hx
  have h1 : x "X" ≤ 0 := hx.2.2.2.1 ("L1", [("X", 0)]) (by decide) ("X", 0) (by decide)
  have h2 : (0 : ℚ) ≤ x "X" := hx.1 "X" (by decide)
  linarith

/-- Any feasible point of the C7 instance earns at most 180, attained only at
the tie (20, 20). -/
theorem stC7_optimal : ∀ y, feasible stC7 y →
    objectiveValue stC7 y ≤ 180 ∧
      (objectiveValue stC7 y = 180 → y "P" = 20 ∧ y "R" = 20) := by
  intro y hy
  have hP : y "P" ≤ (20 : ℚ) := hy.2.2.1 ("P", ⟨["L", "M"], 5, 20, .Indirect⟩) (by decide)
  have hR : y "R" ≤ (20 : ℚ) := hy.2.2.1 ("R", ⟨["L", "M"], 4, 20, .Indirect⟩) (by decide)
  have hobj : objectiveValue stC7 y = y "P" * 5 + (y "R" * 4 + 0) := rfl
  rw [hobj]
  constructor
  · linarith
  · intro he
    constructor <;> linarith

/-- Any feasible point of the C9 instance earns at most the objective value of
`solC9`. -/
theorem stC9_optimal : ∀ y, feasible stC9 y → objectiveValue stC9 y ≤ 31701 / 1000 := by
  intro y hy
  have hA : y "A" ≤ (10567 / 1000 : ℚ) :=
    hy.2.2.1 ("A", ⟨["A"], 3, 10567 / 1000, .Direct⟩) (by decide)
  have hobj : objectiveValue stC9 y = y "A" * 3 + 0 := rfl
  rw [hobj]
  linarith

/-- C1 (corrected): the code never inspects the solver status, so nothing ever
detects or reports infeasibility. First conjunct: once the build phase
succeeds, the run's outcome is a pure function of the variable values the
solver left behind — feasibility never enters. On the concretely infeasible
model `rowC1`: with the non-positive values the solver actually leaves, the OD
summary is empty, the column-less leg-detail frame makes line 175 raise
`KeyError: Flight Leg`, and the run aborts with
"Error processing file: Flight Leg" — no tables, but also no error that names
the fatal condition (ModelInfeasible is never surfaced, verbatim or
otherwise). And had the solver left a positive value (last conjunct), the four
tables plus the profit scalar would be emitted despite the infeasibility. -/
theorem C1_infeasible_run_still_reports :
    (∀ (d : List DirectRow) (ind : List IndirectRow) (sol : String → ℚ) (st : BuildState),
        buildModel d ind = .ok st →
        runPipeline d ind sol =
          (report st sol).mapError fun e => "Error processing file: " ++ e) ∧
    buildModel [rowC1] [] = .ok stC1 ∧
    (¬ ∃ x, feasible stC1 x) ∧
    runPipeline [rowC1] [] solZero = .error "Error processing file: Flight Leg" ∧
    runPipeline [rowC1] [] (fun _ => 60) = .ok outC1pos := by
  refine ⟨?_, rfl, stC1_infeasible, rfl, rfl⟩
  intro d ind sol st h
  rcases hr : report st sol with e | out <;> simp [runPipeline, h, hr, Except.mapError]

/-- C1 counterexample: on a concrete infeasible model the only diagnostic the
run emits is the incidental dataframe-column error
"Error processing file: Flight Leg" — not a clear fatal-condition error
describing the infeasibility — and with a positive left-behind variable value
the same infeasible run emits the full tables and a profit record instead of
no allocation output. -/
theorem C1_infeasible_counterexample :
    (¬ ∃ x, feasible stC1 x) ∧
    runPipeline [rowC1] [] solZero = .error "Error processing file: Flight Leg" ∧
    runPipeline [rowC1] [] (fun _ => 60) = .ok outC1pos :=
  ⟨stC1_infeasible, rfl, rfl⟩

/-- C2 (corrected): only the indirect-route table tolerates a malformed row.
A non-coercible numeric cell in an indirect row is skipped with a row-level
diagnostic and the remaining rows are still allocated (first four conjuncts:
the valid rows P and R get their optimal 40 and 30 tons and exactly one row
error is recorded); but the same malformed cell in the direct-route table
aborts the entire run with a single file-level error and no output (last
conjunct). -/
theorem C2_row_tolerance_indirect_only :
    buildModel [] rowsC2i = .ok stC2 ∧
    feasible stC2 solC2 ∧
    (∀ y, feasible stC2 y → objectiveValue stC2 y ≤ 320) ∧
    runPipeline [] rowsC2i solC2 = .ok outC2 ∧
    outC2.rowErrors = [indirectRowError "Q" "could not convert string to float: abc"] ∧
    runPipeline rowsC2d [] solZero =
      .error "Error processing file: could not convert string to float: oops" := by
  refine ⟨rfl, by decide, ?_, rfl, rfl, rfl⟩
  intro y hy
  have hP : y "P" ≤ (40 : ℚ) := hy.2.2.1 ("P", ⟨["L", "M"], 5, 40, .Indirect⟩) (by decide)
  have hR : y "R" ≤ (30 : ℚ) := hy.2.2.1 ("R", ⟨["L", "M"], 4, 30, .Indirect⟩) (by decide)
  have hobj : objectiveValue stC2 y = y "P" * 5 + (y "R" * 4 + 0) := rfl
  rw [hobj]
  linarith

/-- C2 counterexample: one malformed row (non-numeric `CM`) in the
direct-route table between two valid rows makes the whole run fail with the
outer file-level error — the valid rows are not allocated, contradicting the
claim that a single malformed row never invalidates the rest of the dataset
in either table. -/
theorem C2_direct_row_fatal_counterexample :
    runPipeline rowsC2d [] solZero =
      .error "Error processing file: could not convert string to float: oops" := rfl

/-- C3 (corrected): `leg_tp_master_caps[leg] = master_cap` (line 82) is a
plain overwrite, so the master cap recorded for a leg referenced by several
Indirect records is the value of the LAST record, not the minimum; a later
record can relax the bound set by an earlier one. -/
theorem C3_master_cap_last_wins :
    ∀ m1 m2 : ℚ,
      dlookup (indirectOnlyState [rowX m1, rowY m2]).leg_tp_master_caps "L" = some m2 ∧
      dlookup (indirectOnlyState [rowX m1, rowY m2]).leg_tp_master_caps "M" = some m2 := by
  intro m1 m2
  exact ⟨rfl, rfl⟩

/-- C3 counterexample: two Indirect records touch leg L with master caps 10
then 50; the minimum (most restrictive) would be 10, but the recorded value is
50 — the later record relaxed the earlier bound. -/
theorem C3_master_cap_counterexample :
    dlookup (indirectOnlyState [rowX 10, rowY 50]).leg_tp_master_caps "L" = some 50 ∧
    min (10 : ℚ) 50 = 10 ∧ (50 : ℚ) ≠ 10 :=
  ⟨rfl, by decide, by decide⟩

/-- C4 (corrected): for a leg touched only by Indirect routes, the code never
reads any leg-specific capacity field (line 76 is commented out); it assigns
the traffic-type master cap of the FIRST record that references the leg
(lines 90-92) — later records never change it, and no running minimum is
taken — and this fallback is surfaced as a warning. -/
theorem C4_leg_capacity_first_fallback :
    ∀ m1 m2 : ℚ,
      dlookup (indirectOnlyState [rowX m1, rowY m2]).leg_total_capacities "L" = some m1 ∧
      dlookup (indirectOnlyState [rowX m1, rowY m2]).leg_total_capacities "M" = some m1 ∧
      (indirectOnlyState [rowX m1, rowY m2]).warnings =
        [warnFallback "L" "X" m1, warnFallback "M" "X" m1] := by
  intro m1 m2
  exact ⟨rfl, rfl, rfl⟩

/-- C4 counterexample: both records carry a leg-specific `AI Share` cell of 30
(the claimed running minimum would be 30, and the minimum of the supplied
master caps 50 and 20 would be 20), yet the recorded total capacity for leg L
is 50 — the first record's master cap, with the leg-specific field ignored. -/
theorem C4_leg_capacity_counterexample :
    dlookup (indirectOnlyState [rowX 50, rowY 20]).leg_total_capacities "L" = some 50 ∧
    (50 : ℚ) ≠ 30 ∧ (50 : ℚ) ≠ 20 :=
  ⟨rfl, by decide, by decide⟩

/-- C5 (confirmed): every direct record with a usable id and coercible cells
yields a route whose ceiling is `min(AI Share, AI Cap)` (first conjunct), and
on spec Scenario A (capacity 100, share 60, margin 10) the LP's unique optimum
is 60 tons — every feasible point earns at most 600 and only tonnage 60
attains it — with the report showing tonnage 60 and profit 600. -/
theorem C5_direct_route_ceiling_scenarioA :
    (∀ (st : BuildState) (od : String) (cap cm share : ℚ), od ≠ "" →
      ∃ st2, processDirectRow st ⟨od, .num cap, .num cm, .num share⟩ = .ok st2 ∧
        dlookup st2.all_od_paths od = some ⟨[od], cm, min share cap, .Direct⟩) ∧
    buildModel [rowC5] [] = .ok stC5 ∧
    feasible stC5 solC5 ∧
    (∀ y, feasible stC5 y →
      objectiveValue stC5 y ≤ 600 ∧ (objectiveValue stC5 y = 600 → y "A" = 60)) ∧
    runPipeline [rowC5] [] solC5 = .ok outC5 := by
  refine ⟨processDirectRow_num, rfl, by decide, ?_, rfl⟩
  intro y hy
  have hA : y "A" ≤ (60 : ℚ) := hy.2.2.1 ("A", ⟨["A"], 10, 60, .Direct⟩) (by decide)
  have hobj : objectiveValue stC5 y = y "A" * 10 + 0 := rfl
  rw [hobj]
  constructor
  · linarith
  · intro he
    linarith

/-- C6 (corrected): an indirect record's route ceiling is just its own
allocable share — the code computes `min(ai_share, tp_od_cap)` with
`tp_od_cap = ai_share` (lines 56-57). The two leg-specific `TP Cap` fields are
emitted as separate per-(route, leg) constraints (conjuncts two and three),
not folded into the ceiling, and no max-route-tonnage field is read at all. -/
theorem C6_indirect_route_ceiling_share_only :
    ∀ cm share tp1 tp2 m1 m2 : ℚ,
      dlookup (indirectOnlyState [rowC6 cm share tp1 tp2 m1 m2]).all_od_paths "X" =
        some ⟨["L1", "L2"], cm, share, .Indirect⟩ ∧
      dlookup (indirectOnlyState [rowC6 cm share tp1 tp2 m1 m2]).leg_tp_caps "L1" =
        some [("X", tp1)] ∧
      dlookup (indirectOnlyState [rowC6 cm share tp1 tp2 m1 m2]).leg_tp_caps "L2" =
        some [("X", tp2)] := by
  intro cm share tp1 tp2 m1 m2
  refine ⟨?_, rfl, rfl⟩
  have h : dlookup (indirectOnlyState [rowC6 cm share tp1 tp2 m1 m2]).all_od_paths "X" =
      some ⟨["L1", "L2"], cm, min share share, .Indirect⟩ := rfl
  rw [h, min_self]

/-- C6 counterexample: with allocable share 100 and leg-specific route caps 20
and 30, the claimed ceiling would be min(100, 20, 30) = 20, but the stored
`max_allocable` is 100. -/
theorem C6_route_ceiling_counterexample :
    dlookup (indirectOnlyState [rowC6 5 100 20 30 100 100]).all_od_paths "X" =
      some ⟨["L1", "L2"], 5, 100, .Indirect⟩ ∧
    min (100 : ℚ) (min 20 30) = 20 ∧ (100 : ℚ) ≠ 20 :=
  ⟨rfl, by decide, by decide⟩

/-- C7 (corrected): for every leg group the assigned fill-priority ranks are
exactly 1..N (first conjunct: the enumerate loop pairs ranks `range' 1 N` with
a permutation of the group), and rank 1 goes to a contributor of maximal
tonnage (second conjunct). But contributors with EQUAL tonnage are ranked in
REVERSE table order, not input order: pandas's descending sort is a stable
ascending pass followed by a reversal, so on an all-tied group the sorted
order is the reversed group (third conjunct). -/
theorem C7_fill_priority_ranking :
    (∀ g : List (ℕ × LegRow),
      (rankedGroup g).map Prod.fst = List.range' 1 g.length ∧
      ((rankedGroup g).map Prod.snd).Perm g) ∧
    (∀ (g : List (ℕ × LegRow)) (c : ℕ × LegRow) (rest : List (ℕ × LegRow)),
      descSortBy iTons g = c :: rest →
      rankedGroup g = (1, c) :: List.enumFrom 2 rest ∧ ∀ d ∈ g, iTons d ≤ iTons c) ∧
    (∀ g : List (ℕ × LegRow), (∀ a ∈ g, ∀ b ∈ g, iTons a = iTons b) →
      descSortBy iTons g = g.reverse) := by
  refine ⟨fun g => ⟨rankedGroup_map_fst g, rankedGroup_map_snd g⟩, ?_, ?_⟩
  · intro g c rest h
    refine ⟨?_, descSortBy_head_le iTons g c rest h⟩
    unfold rankedGroup
    rw [h]
    rfl
  · intro g h
    exact descSortBy_allEq iTons g h

/-- C7 counterexample: two indirect routes P (first in the table) and R share
both legs and both solve to 20 tons — the tie is genuine, since (20, 20) is
the unique optimum. In the reported leg detail the LATER contributor R holds
rank 1 on both legs and the earlier P holds rank 2, so ties are broken in
reverse input order, contradicting the claimed stable input-order tie-break. -/
theorem C7_tie_order_counterexample :
    buildModel [] rowsC7 = .ok stC7 ∧
    feasible stC7 solC7 ∧
    (∀ y, feasible stC7 y →
      objectiveValue stC7 y ≤ 180 ∧
        (objectiveValue stC7 y = 180 → y "P" = 20 ∧ y "R" = 20)) ∧
    runPipeline [] rowsC7 solC7 = .ok outC7 :=
  ⟨rfl, by decide, stC7_optimal, rfl⟩

/-- C8 (corrected): a capacity sub-cap cell left blank or holding the
placeholder "-" is coerced to 0 by the ingestion normalization and then
emitted as the constraint `x_od ≤ 0`: far from adding no constraint, it forces
the route's tonnage to 0 (the zero assignment being the only — and still
feasible — choice for that route). -/
theorem C8_blank_cap_zero_bound :
    ∀ c : RawCell, c = RawCell.blank ∨ c = RawCell.dash →
      buildModel [] [rowC8 c] = .ok stC8 ∧
      dlookup stC8.leg_tp_caps "L1" = some [("X", 0)] ∧
      (∀ x, feasible stC8 x → x "X" = 0) ∧
      feasible stC8 (fun _ => 0) := by
  intro c hc
  rcases hc with rfl | rfl
  · exact ⟨rfl, rfl, stC8_forces_zero, by decide⟩
  · exact ⟨rfl, rfl, stC8_forces_zero, by decide⟩

/-- C8 witness: the theorem instantiated at a blank cell. -/
theorem C8_blank_cap_zero_bound_witness :
    buildModel [] [rowC8 RawCell.blank] = .ok stC8 ∧
    dlookup stC8.leg_tp_caps "L1" = some [("X", 0)] ∧
    (∀ x, feasible stC8 x → x "X" = 0) ∧
    feasible stC8 (fun _ => 0) :=
  C8_blank_cap_zero_bound RawCell.blank (Or.inl rfl)

/-- C8 counterexample: with the first leg's `TP Cap` cell being the
placeholder "-", the built model contains the zero bound ("X", 0) on leg L1
and every feasible point has route X at 0 tons — the blank/placeholder cell
became a zero bound, contradicting the claim that it adds no constraint. -/
theorem C8_dash_cap_counterexample :
    buildModel [] [rowC8 RawCell.dash] = .ok stC8 ∧
    dlookup stC8.leg_tp_caps "L1" = some [("X", 0)] ∧
    (∀ x, feasible stC8 x → x "X" = 0) :=
  ⟨rfl, rfl, stC8_forces_zero⟩

/-- C9 (corrected): the network total profit is indeed the solver's unrounded
objective value (first conjunct, and concretely 31701/1000 = 31.701 while the
rounded per-route profit shows 317/10 = 31.70), but the leg detail and leg
summary are computed from the ROUNDED per-route tonnage: on the optimal
solution 10.567 the leg summary reports round2(10.567) = 10.57, the sum of its
contributors' rounded tonnages, not of the unrounded solved tonnages. -/
theorem C9_rounding_aggregates :
    (∀ (st : BuildState) (sol : String → ℚ) (out : Output),
      report st sol = .ok out → out.totalProfit = objectiveValue st sol) ∧
    buildModel [rowC9] [] = .ok stC9 ∧
    feasible stC9 solC9 ∧
    (∀ y, feasible stC9 y → objectiveValue stC9 y ≤ 31701 / 1000) ∧
    runPipeline [rowC9] [] solC9 = .ok outC9 ∧
    outC9.legSummary = [("A", round2 (solC9 "A"))] ∧
    outC9.totalProfit = objectiveValue stC9 solC9 ∧
    outC9.odSummary = [⟨"A", round2 (solC9 "A"), 3, round2 (solC9 "A" * 3)⟩] := by
  refine ⟨?_, rfl, by decide, stC9_optimal, rfl, by decide, by decide, by decide⟩
  intro st sol out h
  simp only [report] at h
  split at h
  · exact Except.noConfusion h
  · injection h with h2
    subst h2
    rfl

/-- C9 counterexample: on the unique optimal tonnage 10.567 the reported leg
summary holds 10.57 — the sum of the rounded contributor tonnages — which
differs from the sum of the unrounded solved tonnages, 10.567. -/
theorem C9_leg_summary_rounded_counterexample :
    runPipeline [rowC9] [] solC9 = .ok outC9 ∧
    feasible stC9 solC9 ∧
    (∀ y, feasible stC9 y → objectiveValue stC9 y ≤ 31701 / 1000) ∧
    outC9.legSummary = [("A", 1057 / 100)] ∧
    solC9 "A" = 10567 / 1000 ∧
    (1057 / 100 : ℚ) ≠ 10567 / 1000 :=
  ⟨rfl, by decide, stC9_optimal, rfl, rfl, by decide⟩

/-- C10 (confirmed): the route id "A B" contains a space, which PuLP rewrites
to an underscore in the variable name; the reverse mapping of line 127 turns
every underscore into a hyphen, so neither the exact nor the normalized lookup
recovers the key. Next to the ordinary route "C" (which keeps the leg-detail
frame non-empty, so the run completes), "A B"'s solved tonnage 60 is strictly
positive and the pair (60, 50) is the unique optimum, yet the OD summary, leg
detail and leg summary contain only "C" — "A B" is dropped with only a
warning — while the reported total network profit 950 still includes its 600,
so the emitted tables are mutually inconsistent. -/
theorem C10_sanitized_id_dropped_inconsistent :
    buildModel [rowC10, rowC10b] [] = .ok stC10 ∧
    feasible stC10 solC10 ∧
    (∀ y, feasible stC10 y → objectiveValue stC10 y ≤ 950) ∧
    objectiveValue stC10 solC10 = 950 ∧
    (0 : ℚ) < solC10 "A B" ∧
    runPipeline [rowC10, rowC10b] [] solC10 = .ok outC10 := by
  refine ⟨rfl, by decide, ?_, rfl, by decide, rfl⟩
  intro y hy
  have hA : y "A B" ≤ (60 : ℚ) := hy.2.2.1 ("A B", ⟨["A B"], 10, 60, .Direct⟩) (by decide)
  have hC : y "C" ≤ (50 : ℚ) := hy.2.2.1 ("C", ⟨["C"], 7, 50, .Direct⟩) (by decide)
  have hobj : objectiveValue stC10 y = y "A B" * 10 + (y "C" * 7 + 0) := rfl
  rw [hobj]
  linarith
